import Mathlib

/-!
Verification of the guild-court bot's lawsuit and confinement state machines,
shallowly embedded from `src/handler.rs`. Discord snowflake ids are modelled
as `Nat` (the sentinel `SnowflakeId(0)` becomes `0`), MongoDB documents as
fields of a `GuildState` record, and each handler becomes a pure function
from the pre-state (plus the outcomes of platform calls, passed as booleans)
to the post-state, the ordered list of external calls it issues, and its
result. Code that lives outside `handler.rs` (the `LawsuitCtx` methods, the
`Mongo` collection operations, option extraction) is modelled from the spec,
as noted on each definition.
-/

namespace CourtBot

/-- A lawsuit record, from `struct Lawsuit` as constructed in
`lawsuit_command_handler` (`handler.rs` lines 338-348). -/
structure Lawsuit where
  id : Nat
  plaintiff : Nat
  accused : Nat
  judge : Nat
  plaintiff_lawyer : Option Nat
  accused_lawyer : Option Nat
  reason : String
  verdict : Option String
  court_room : Nat
deriving Repr, DecidableEq

/-- A provisioned court room, holding its channel id. -/
structure CourtRoom where
  channel_id : Nat
deriving Repr, DecidableEq

/-- The per-guild persisted state: court category and prison role
configuration, court rooms, lawsuits, and the set of imprisoned users
(confinement entries), modelled as a list of user ids. -/
structure GuildState where
  court_category : Option Nat
  prison_role : Option Nat
  court_rooms : List CourtRoom
  lawsuits : List Lawsuit
  prison_entries : List Nat
deriving Repr, DecidableEq

/-- The fresh default record produced by find-or-insert when no state
exists yet: empty collections, no configured category or role. -/
def initState : GuildState :=
  { court_category := none
    prison_role := none
    court_rooms := []
    lawsuits := []
    prison_entries := [] }

/-- External calls a handler can issue, in program order. Platform calls
carry an `ok` flag recording whether the platform accepted the call. -/
inductive Action where
  | persistAddPrison (user : Nat)
  | persistRemovePrison (user : Nat)
  | assignRole (user role : Nat) (ok : Bool)
  | revokeRole (user role : Nat) (ok : Bool)
  | allocLawsuit (l : Lawsuit)
  | createRoom (category : Nat)
  | persistLawsuitAndRoom (l : Lawsuit) (r : CourtRoom)
  | say (msg : String)
deriving Repr, DecidableEq

/-- Outcome of running one handler: the post-state of the guild document,
the ordered trace of external calls issued, and the handler's result. -/
structure OpOutcome (α : Type) where
  state : GuildState
  actions : List Action
  result : α
deriving Repr

/-- Result of the prison arrest/release handlers. `unconfigured` is the
user-visible guidance reply when no prison role is set;
`platformUnavailable` is a failed member fetch or role call. -/
inductive PrisonResult where
  | unconfigured
  | platformUnavailable
  | ok
deriving Repr, DecidableEq

/-- Modelled from the spec: `Mongo::add_to_prison` (not under `src/`)
records the confinement entry as set membership, keyed by user id. -/
def addEntry (entries : List Nat) (user : Nat) : List Nat :=
  if user ∈ entries then entries else entries ++ [user]

/-- Modelled from the spec: `Mongo::remove_from_prison` (not under `src/`)
deletes the confinement entry for the user. -/
def removeEntry (entries : List Nat) (user : Nat) : List Nat :=
  entries.filter (fun u => u ≠ user)

/-- The arrest handler, from `prison_arrest_impl` (`handler.rs` lines
509-537): read the state; if no prison role is configured, reply with
guidance and stop; otherwise persist the confinement entry, then fetch the
member and add the role. `memberResolvable` is whether the member fetch
succeeds, `roleAddOk` whether the role-add call succeeds; either failure
surfaces as `platformUnavailable`. -/
def prison_arrest_impl (s : GuildState) (user : Nat)
    (memberResolvable roleAddOk : Bool) : OpOutcome PrisonResult :=
  match s.prison_role with
  | none =>
      { state := s
        actions := [Action.say "du mosch zerst e rolle setze mit /prison set_role"]
        result := PrisonResult.unconfigured }
  | some role =>
      let s' : GuildState := { s with prison_entries := addEntry s.prison_entries user }
      if memberResolvable then
        { state := s'
          actions := [Action.persistAddPrison user, Action.assignRole user role roleAddOk]
          result := if roleAddOk then PrisonResult.ok else PrisonResult.platformUnavailable }
      else
        { state := s'
          actions := [Action.persistAddPrison user]
          result := PrisonResult.platformUnavailable }

/-- The release handler, from `prison_release_impl` (`handler.rs` lines
550-582): same configuration check, then remove the confinement entry from
persistence, then fetch the member and remove the role. -/
def prison_release_impl (s : GuildState) (user : Nat)
    (memberResolvable roleRemoveOk : Bool) : OpOutcome PrisonResult :=
  match s.prison_role with
  | none =>
      { state := s
        actions := [Action.say "du mosch zerst e rolle setze mit /prison set_role"]
        result := PrisonResult.unconfigured }
  | some role =>
      let s' : GuildState := { s with prison_entries := removeEntry s.prison_entries user }
      if memberResolvable then
        { state := s'
          actions := [Action.persistRemovePrison user, Action.revokeRole user role roleRemoveOk]
          result := if roleRemoveOk then PrisonResult.ok else PrisonResult.platformUnavailable }
      else
        { state := s'
          actions := [Action.persistRemovePrison user]
          result := PrisonResult.platformUnavailable }

/-- The membership-join reconciliation handler, from
`handle_guild_member_join` (`handler.rs` lines 240-268): if a prison role
is configured and a confinement entry exists for the user (the
`find_prison_entry` lookup, modelled from the spec as set membership), issue
the role-assign call; otherwise do nothing. `roleAddOk` is whether that
platform call succeeds. -/
def handle_guild_member_join (s : GuildState) (user : Nat)
    (roleAddOk : Bool) : OpOutcome Unit :=
  match s.prison_role with
  | none => { state := s, actions := [], result := () }
  | some role =>
      if user ∈ s.prison_entries then
        { state := s, actions := [Action.assignRole user role roleAddOk], result := () }
      else
        { state := s, actions := [], result := () }

/-- Result of the lawsuit `create` subcommand. `noPermissions` is the
`Response::NoPermissions` reply; `emptyReason` rejects an empty reason;
`unconfigured` is the missing court category; `platformUnavailable` is a
failed room-creation call; `created` carries the persisted lawsuit. -/
inductive CreateResult where
  | noPermissions
  | emptyReason
  | unconfigured
  | platformUnavailable
  | created (l : Lawsuit)
deriving Repr, DecidableEq

/-- Result of the lawsuit `close` subcommand. -/
inductive CloseResult where
  | noActiveLawsuit
  | forbidden
  | closed
deriving Repr, DecidableEq

/-- The user-visible reply for each close outcome, from the string
literals in `handler.rs` (lines 408-410, 421-423, 447) and the
`Response::NoPermissions` text (line 296). -/
def closeMessage : CloseResult → String
  | CloseResult.noActiveLawsuit => "i dem channel lauft kein aktive prozess!"
  | CloseResult.forbidden => "du häsch kei recht für da!"
  | CloseResult.closed => "ich han en dir abschlosse"

/-- The lawsuit record allocated by the `create` arm of
`lawsuit_command_handler` (`handler.rs` lines 338-348): fresh id, no
verdict, and the sentinel court-room value `SnowflakeId(0)`. -/
def mkLawsuit (freshId plaintiff accused judge : Nat)
    (plaintiff_lawyer accused_lawyer : Option Nat) (reason : String) : Lawsuit :=
  { id := freshId
    plaintiff := plaintiff
    accused := accused
    judge := judge
    plaintiff_lawyer := plaintiff_lawyer
    accused_lawyer := accused_lawyer
    reason := reason
    verdict := none
    court_room := 0 }

/-- The ids of the lawsuits currently in the state. -/
def lawsuitIds (s : GuildState) : List Nat :=
  s.lawsuits.map (fun l => l.id)

/-- The channel ids of the court rooms currently in the state. -/
def roomIds (s : GuildState) : List Nat :=
  s.court_rooms.map (fun r => r.channel_id)

/-- The `create` arm of `lawsuit_command_handler` (`handler.rs` lines
324-362): check guild-management permission, allocate the lawsuit record
with the sentinel room, then run the room provisioning. The provisioning
step (`LawsuitCtx::initialize`, not under `src/`) is modelled from the
spec: fail `Unconfigured` when no court category is set; otherwise request
a restricted room from the platform (`newChan` is the channel id the
platform returns, `none` for a failed call); on success set the lawsuit's
`court_room` to the new channel id, append the new room and lawsuit, and
persist. The empty-reason precondition is likewise modelled from the
spec (`reason` non-empty). -/
def createLawsuit (s : GuildState) (manageGuild : Bool)
    (plaintiff accused judge : Nat) (pLawyer aLawyer : Option Nat)
    (reason : String) (freshId : Nat) (newChan : Option Nat) :
    OpOutcome CreateResult :=
  if manageGuild = false then
    { state := s, actions := [], result := CreateResult.noPermissions }
  else if reason = "" then
    { state := s, actions := [], result := CreateResult.emptyReason }
  else
    let l := mkLawsuit freshId plaintiff accused judge pLawyer aLawyer reason
    match s.court_category with
    | none =>
        { state := s
          actions := [Action.allocLawsuit l]
          result := CreateResult.unconfigured }
    | some category =>
        match newChan with
        | none =>
            { state := s
              actions := [Action.allocLawsuit l, Action.createRoom category]
              result := CreateResult.platformUnavailable }
        | some chan =>
            let l' := { l with court_room := chan }
            let room : CourtRoom := { channel_id := chan }
            { state := { s with
                court_rooms := s.court_rooms ++ [room]
                lawsuits := s.lawsuits ++ [l'] }
              actions := [Action.allocLawsuit l, Action.createRoom category,
                Action.persistLawsuitAndRoom l' room]
              result := CreateResult.created l' }

/-- Modelled from the spec: the persistence gateway's
`updateLawsuitVerdict(guildId, roomId, verdict)` used by
`LawsuitCtx::rule_verdict` (not under `src/`): set the verdict on the
first lawsuit that is active in the room (the same lawsuit the handler's
`find` located), leaving every other lawsuit unchanged. -/
def updateLawsuitVerdict (ls : List Lawsuit) (roomId : Nat) (v : String) :
    List Lawsuit :=
  match ls with
  | [] => []
  | l :: rest =>
      if l.court_room = roomId ∧ l.verdict = none then
        { l with verdict := some v } :: rest
      else
        l :: updateLawsuitVerdict rest roomId v

/-- The `close` arm of `lawsuit_command_handler` (`handler.rs` lines
388-448): look up the lawsuit active in the invoked room and the court-room
record for that channel; if either lookup misses, reply "no active process
in this room". The verdict step (`LawsuitCtx::rule_verdict`, not under
`src/`) is modelled from the spec: the actor must be the lawsuit's judge
or hold the `MANAGE_GUILD` permission override, else `Forbidden`; on
success set the verdict on the matched lawsuit and persist. -/
def closeLawsuit (s : GuildState) (actor : Nat) (manageGuild : Bool)
    (roomId : Nat) (verdict : String) : OpOutcome CloseResult :=
  match s.lawsuits.find? (fun l => l.court_room == roomId && l.verdict.isNone) with
  | none => { state := s, actions := [], result := CloseResult.noActiveLawsuit }
  | some lawsuit =>
      match s.court_rooms.find? (fun r => r.channel_id == roomId) with
      | none => { state := s, actions := [], result := CloseResult.noActiveLawsuit }
      | some _room =>
          if actor = lawsuit.judge ∨ manageGuild = true then
            { state := { s with lawsuits := updateLawsuitVerdict s.lawsuits roomId verdict }
              actions := []
              result := CloseResult.closed }
          else
            { state := s, actions := [], result := CloseResult.forbidden }

/-- The `set_category` arm of `lawsuit_command_handler` (`handler.rs` lines
364-387), after the platform has resolved the channel to a category:
store the category id. -/
def set_court_category (s : GuildState) (category : Nat) : GuildState :=
  { s with court_category := some category }

/-- The `clear` arm of `lawsuit_command_handler` (`handler.rs` lines
449-456): delete the whole guild document; a later find-or-insert sees the
fresh default state again. -/
def clearGuild (_s : GuildState) : GuildState := initState

/-- Guild states reachable from the fresh default state by the lawsuit
command handlers. A `create` step may assume the platform hands back a
genuinely new channel: the returned channel id is not one of the already
provisioned rooms. -/
inductive Reachable : GuildState → Prop where
  | init : Reachable initState
  | setCategory (s : GuildState) (category : Nat) (hs : Reachable s) :
      Reachable (set_court_category s category)
  | create (s : GuildState) (manageGuild : Bool) (plaintiff accused judge : Nat)
      (pLawyer aLawyer : Option Nat) (reason : String) (freshId : Nat)
      (newChan : Option Nat) (hs : Reachable s)
      (hfresh : ∀ c, newChan = some c → c ∉ roomIds s) :
      Reachable (createLawsuit s manageGuild plaintiff accused judge
        pLawyer aLawyer reason freshId newChan).state
  | close (s : GuildState) (actor : Nat) (manageGuild : Bool) (roomId : Nat)
      (verdict : String) (hs : Reachable s) :
      Reachable (closeLawsuit s actor manageGuild roomId verdict).state
  | clear (s : GuildState) (hs : Reachable s) :
      Reachable (clearGuild s)

/-- The number of lawsuits in a list that are active (no verdict yet) in
room `R`. -/
def countActiveList (ls : List Lawsuit) (R : Nat) : Nat :=
  (ls.filter (fun l => l.court_room == R && l.verdict.isNone)).length

/-- The number of lawsuits in the state that are active (no verdict yet)
in room `R`. -/
def countActive (s : GuildState) (R : Nat) : Nat :=
  countActiveList s.lawsuits R

/-- Every lawsuit's court room is a provisioned room of the state. -/
def roomsCover (s : GuildState) : Prop :=
  ∀ l ∈ s.lawsuits, l.court_room ∈ roomIds s

/-- The inductive invariant of the lawsuit state machine: court rooms cover
the lawsuits' rooms, and no room hosts two active lawsuits. -/
def lawsuitInv (s : GuildState) : Prop :=
  roomsCover s ∧ ∀ R, countActive s R ≤ 1

/-- The persisted guild document together with the platform's transient
role assignments, as `(user, role)` pairs. The platform can lose these
(a member who leaves and rejoins loses all roles); the confinement entry
in the guild document is the durable fact. -/
structure World where
  state : GuildState
  roles : List (Nat × Nat)
deriving Repr, DecidableEq

/-- The platform's reaction to one issued call: a successful role-assign
adds the pair, a successful role-revoke removes it, anything else (a failed
call, a persistence write, a reply) leaves the role assignments alone. -/
def applyCall (roles : List (Nat × Nat)) : Action → List (Nat × Nat)
  | Action.assignRole user role true =>
      if (user, role) ∈ roles then roles else roles ++ [(user, role)]
  | Action.revokeRole user role true =>
      roles.filter (fun p => p ≠ (user, role))
  | _ => roles

/-- Run a trace of issued calls against the platform's role assignments. -/
def applyCalls (roles : List (Nat × Nat)) (acts : List Action) : List (Nat × Nat) :=
  acts.foldl applyCall roles

/-- Run the arrest handler in a world: the guild document takes the
handler's post-state, the platform applies the issued calls. -/
def runArrest (w : World) (user : Nat) (memberResolvable roleAddOk : Bool) : World :=
  let o := prison_arrest_impl w.state user memberResolvable roleAddOk
  { state := o.state, roles := applyCalls w.roles o.actions }

/-- Run the release handler in a world. -/
def runRelease (w : World) (user : Nat) (memberResolvable roleRemoveOk : Bool) : World :=
  let o := prison_release_impl w.state user memberResolvable roleRemoveOk
  { state := o.state, roles := applyCalls w.roles o.actions }

/-- Run the membership-join reconciliation handler in a world. -/
def runJoin (w : World) (user : Nat) (roleAddOk : Bool) : World :=
  let o := handle_guild_member_join w.state user roleAddOk
  { state := o.state, roles := applyCalls w.roles o.actions }

/-- An external actor strips a role from a member on the platform side,
without touching the persisted guild document (e.g. the platform discarding
roles when a member leaves). -/
def stripRole (w : World) (user role : Nat) : World :=
  { w with roles := w.roles.filter (fun p => p ≠ (user, role)) }

/-- A guild state with the prison role configured and nobody imprisoned. -/
def prisonExState : GuildState :=
  { initState with prison_role := some 2 }

/-- A world whose guild document has the prison role configured. -/
def exWorld : World :=
  { state := prisonExState, roles := [] }

/-- An active lawsuit (no verdict) whose court room is channel 5. -/
def exActiveLawsuit : Lawsuit :=
  { id := 1
    plaintiff := 1
    accused := 2
    judge := 3
    plaintiff_lawyer := none
    accused_lawyer := none
    reason := "r"
    verdict := none
    court_room := 5 }

/-- A guild state holding an active lawsuit in room 5 but no court-room
record for channel 5. -/
def exNoRoomState : GuildState :=
  { initState with lawsuits := [exActiveLawsuit] }

/-- A guild state holding an active lawsuit in room 5 together with the
court-room record for channel 5. -/
def exCourtState : GuildState :=
  { initState with
      court_rooms := [{ channel_id := 5 }]
      lawsuits := [exActiveLawsuit] }

theorem mem_addEntry (entries : List Nat) (user : Nat) :
    user ∈ addEntry entries user := by
  unfold addEntry
  split
  · assumption
  · simp

theorem not_mem_removeEntry (entries : List Nat) (user : Nat) :
    user ∉ removeEntry entries user := by
  simp [removeEntry]

/-- C4: in every run of arrest with the confinement role configured, the
confinement-entry persistence write is issued, every role-assignment call
comes strictly after it, a failed role assignment is reported as a platform
failure, and the entry is in the persisted state afterwards. -/
theorem arrest_entry_before_role (s : GuildState) (user : Nat)
    (memberResolvable roleAddOk : Bool) (role : Nat)
    (hrole : s.prison_role = some role) :
    Action.persistAddPrison user ∈
      (prison_arrest_impl s user memberResolvable roleAddOk).actions ∧
    (∀ n r ok,
      (prison_arrest_impl s user memberResolvable roleAddOk).actions.get? n =
        some (Action.assignRole user r ok) →
      ∃ m, m < n ∧
        (prison_arrest_impl s user memberResolvable roleAddOk).actions.get? m =
          some (Action.persistAddPrison user)) ∧
    (memberResolvable = true → roleAddOk = false →
      (prison_arrest_impl s user memberResolvable roleAddOk).result =
        PrisonResult.platformUnavailable) ∧
    user ∈ (prison_arrest_impl s user memberResolvable roleAddOk).state.prison_entries := by
  simp only [prison_arrest_impl, hrole]
  cases memberResolvable with
  | false =>
      refine ⟨by simp, ?_, by simp, mem_addEntry _ _⟩
      intro n r ok h
      match n with
      | 0 => simp at h
      | n + 1 => simp at h
  | true =>
      refine ⟨by simp, ?_, ?_, mem_addEntry _ _⟩
      · intro n r ok h
        match n with
        | 0 => simp at h
        | 1 => exact ⟨0, by omega, rfl⟩
        | n + 2 => simp at h
      · intro _ h
        subst h
        rfl

/-- C4 witness: arresting user 7 in a configured guild while the role-add
call fails still persists the entry and reports the platform failure. -/
theorem arrest_entry_before_role_witness :
    (prison_arrest_impl prisonExState 7 true false).result =
      PrisonResult.platformUnavailable ∧
    7 ∈ (prison_arrest_impl prisonExState 7 true false).state.prison_entries :=
  ⟨(arrest_entry_before_role prisonExState 7 true false 2 rfl).2.2.1 rfl rfl,
   (arrest_entry_before_role prisonExState 7 true false 2 rfl).2.2.2⟩

/-- C5: in every run of release with the confinement role configured, the
confinement entry is gone from the persisted state afterwards (whatever the
platform calls did), every role-revocation call comes strictly after the
persistence removal, and a failed revocation is reported as a platform
failure. -/
theorem release_removes_entry (s : GuildState) (user : Nat)
    (memberResolvable roleRemoveOk : Bool) (role : Nat)
    (hrole : s.prison_role = some role) :
    user ∉ (prison_release_impl s user memberResolvable roleRemoveOk).state.prison_entries ∧
    (∀ n r ok,
      (prison_release_impl s user memberResolvable roleRemoveOk).actions.get? n =
        some (Action.revokeRole user r ok) →
      ∃ m, m < n ∧
        (prison_release_impl s user memberResolvable roleRemoveOk).actions.get? m =
          some (Action.persistRemovePrison user)) ∧
    (memberResolvable = true → roleRemoveOk = false →
      (prison_release_impl s user memberResolvable roleRemoveOk).result =
        PrisonResult.platformUnavailable) := by
  simp only [prison_release_impl, hrole]
  cases memberResolvable with
  | false =>
      refine ⟨not_mem_removeEntry _ _, ?_, by simp⟩
      intro n r ok h
      match n with
      | 0 => simp at h
      | n + 1 => simp at h
  | true =>
      refine ⟨not_mem_removeEntry _ _, ?_, ?_⟩
      · intro n r ok h
        match n with
        | 0 => simp at h
        | 1 => exact ⟨0, by omega, rfl⟩
        | n + 2 => simp at h
      · intro _ h
        subst h
        rfl

/-- C5 witness: releasing user 7 while the role-revocation call fails still
leaves no confinement entry for 7 and reports the platform failure. -/
theorem release_removes_entry_witness :
    7 ∉ (prison_release_impl prisonExState 7 true false).state.prison_entries ∧
    (prison_release_impl prisonExState 7 true false).result =
      PrisonResult.platformUnavailable :=
  ⟨(release_removes_entry prisonExState 7 true false 2 rfl).1,
   (release_removes_entry prisonExState 7 true false 2 rfl).2.2 rfl rfl⟩

/-- C8: arrest and release with no confinement role configured reply with
the configuration guidance, issue no persistence write (the only issued
call is the guidance reply), and leave the guild state exactly unchanged. -/
theorem prison_unconfigured_noop (s : GuildState) (user : Nat)
    (mR aOk mR2 rOk : Bool) (h : s.prison_role = none) :
    (prison_arrest_impl s user mR aOk).state = s ∧
    (prison_arrest_impl s user mR aOk).result = PrisonResult.unconfigured ∧
    (prison_arrest_impl s user mR aOk).actions =
      [Action.say "du mosch zerst e rolle setze mit /prison set_role"] ∧
    (prison_release_impl s user mR2 rOk).state = s ∧
    (prison_release_impl s user mR2 rOk).result = PrisonResult.unconfigured ∧
    (prison_release_impl s user mR2 rOk).actions =
      [Action.say "du mosch zerst e rolle setze mit /prison set_role"] := by
  simp [prison_arrest_impl, prison_release_impl, h]

/-- C8 witness: on the fresh default state (no role configured), arrest and
release of user 7 change nothing and report the missing configuration. -/
theorem prison_unconfigured_noop_witness :
    (prison_arrest_impl initState 7 true true).state = initState ∧
    (prison_arrest_impl initState 7 true true).result = PrisonResult.unconfigured ∧
    (prison_release_impl initState 7 true true).state = initState ∧
    (prison_release_impl initState 7 true true).result = PrisonResult.unconfigured :=
  ⟨(prison_unconfigured_noop initState 7 true true true true rfl).1,
   (prison_unconfigured_noop initState 7 true true true true rfl).2.1,
   (prison_unconfigured_noop initState 7 true true true true rfl).2.2.2.1,
   (prison_unconfigured_noop initState 7 true true true true rfl).2.2.2.2.1⟩

/-- C6: the join handler issues a role-assign call exactly when the
confinement role is configured and a confinement entry exists for the
joining user; it never changes the guild state; when both conditions hold
the single issued call assigns the configured role; when either fails no
call at all is issued. -/
theorem join_assigns_iff_entry (s : GuildState) (user : Nat) (roleAddOk : Bool) :
    ((∃ r ok, Action.assignRole user r ok ∈
        (handle_guild_member_join s user roleAddOk).actions) ↔
      ((∃ r, s.prison_role = some r) ∧ user ∈ s.prison_entries)) ∧
    (handle_guild_member_join s user roleAddOk).state = s ∧
    (∀ r, s.prison_role = some r → user ∈ s.prison_entries →
      (handle_guild_member_join s user roleAddOk).actions =
        [Action.assignRole user r roleAddOk]) ∧
    (s.prison_role = none ∨ user ∉ s.prison_entries →
      (handle_guild_member_join s user roleAddOk).actions = []) := by
  cases hr : s.prison_role with
  | none => simp [handle_guild_member_join, hr]
  | some role =>
      by_cases hm : user ∈ s.prison_entries
      · simp [handle_guild_member_join, hr, hm]
      · simp [handle_guild_member_join, hr, hm]

/-- C6 witness: a join of user 7 in a guild with the role configured but no
entry for 7 issues no call and leaves the state unchanged. -/
theorem join_assigns_iff_entry_witness :
    (handle_guild_member_join prisonExState 7 true).actions = [] ∧
    (handle_guild_member_join prisonExState 7 true).state = prisonExState :=
  ⟨(join_assigns_iff_entry prisonExState 7 true).2.2.2 (Or.inr (by simp [prisonExState, initState])),
   (join_assigns_iff_entry prisonExState 7 true).2.1⟩

theorem mem_applyCall_assign (roles : List (Nat × Nat)) (u r : Nat) :
    (u, r) ∈ applyCall roles (Action.assignRole u r true) := by
  simp only [applyCall]
  split
  · assumption
  · simp

/-- C7: with the confinement role configured, arrest of a user followed by
an external strip of the role and then a rejoin leaves the user holding the
role again (the stripped pair really was gone in between); release of the
user followed by a rejoin issues no call from the join handler and leaves
the user without the role. -/
theorem confinement_round_trip (w : World) (user role : Nat)
    (hrole : w.state.prison_role = some role) :
    (user, role) ∉ (stripRole (runArrest w user true true) user role).roles ∧
    (user, role) ∈
      (runJoin (stripRole (runArrest w user true true) user role) user true).roles ∧
    (handle_guild_member_join (runRelease w user true true).state user true).actions = [] ∧
    (user, role) ∉ (runJoin (runRelease w user true true) user true).roles := by
  refine ⟨?_, ?_, ?_, ?_⟩
  · simp [stripRole, List.mem_filter]
  · simp only [runJoin, stripRole, runArrest, prison_arrest_impl, hrole,
      handle_guild_member_join, applyCalls, List.foldl]
    simp [mem_addEntry, mem_applyCall_assign]
  · simp only [runRelease, prison_release_impl, hrole, handle_guild_member_join]
    simp [not_mem_removeEntry]
  · simp only [runJoin, runRelease, prison_release_impl, hrole,
      handle_guild_member_join, applyCalls, List.foldl]
    simp [not_mem_removeEntry, applyCall, List.mem_filter]

/-- C7 witness: in a configured guild, arresting user 4 with role 2,
stripping the role, and rejoining re-assigns the pair, while releasing and
rejoining leaves the pair unassigned. -/
theorem confinement_round_trip_witness :
    (4, 2) ∈ (runJoin (stripRole (runArrest exWorld 4 true true) 4 2) 4 true).roles ∧
    (4, 2) ∉ (runJoin (runRelease exWorld 4 true true) 4 true).roles :=
  ⟨(confinement_round_trip exWorld 4 2 rfl).2.1,
   (confinement_round_trip exWorld 4 2 rfl).2.2.2⟩

/-- Updating the verdict of the first active lawsuit in a room puts the
closed copy of the found lawsuit into the list. -/
theorem updateLawsuitVerdict_mem (ls : List Lawsuit) (roomId : Nat) (v : String)
    (L : Lawsuit)
    (hL : ls.find? (fun l => l.court_room == roomId && l.verdict.isNone) = some L) :
    { L with verdict := some v } ∈ updateLawsuitVerdict ls roomId v := by
  induction ls with
  | nil => simp at hL
  | cons h t ih =>
      cases hcond : (h.court_room == roomId && h.verdict.isNone) with
      | true =>
          have hp : h.court_room = roomId ∧ h.verdict = none := by
            simpa [Option.isNone_iff_eq_none] using hcond
          simp only [List.find?, hcond, Option.some.injEq] at hL
          subst hL
          simp only [updateLawsuitVerdict, if_pos hp]
          exact List.mem_cons_self _ _
      | false =>
          have hp : ¬(h.court_room = roomId ∧ h.verdict = none) := by
            intro hc
            simp [hc.1, hc.2] at hcond
          simp only [List.find?, hcond] at hL
          simp only [updateLawsuitVerdict, if_neg hp]
          exact List.mem_cons_of_mem _ (ih hL)

/-- C2 (amended): close replies "no active process in this room" if and
only if no lawsuit is active in the invoked room or no court-room record
for that channel exists; whenever it so replies the state is unchanged; in
particular, close on a room whose lawsuits all carry verdicts already
returns the no-active-process reply and mutates nothing. -/
theorem close_noActive_iff (s : GuildState) (actor : Nat) (manageGuild : Bool)
    (roomId : Nat) (verdict : String) :
    ((closeLawsuit s actor manageGuild roomId verdict).result =
        CloseResult.noActiveLawsuit ↔
      (s.lawsuits.find? (fun l => l.court_room == roomId && l.verdict.isNone) = none ∨
       s.court_rooms.find? (fun r => r.channel_id == roomId) = none)) ∧
    ((closeLawsuit s actor manageGuild roomId verdict).result =
        CloseResult.noActiveLawsuit →
      (closeLawsuit s actor manageGuild roomId verdict).state = s) ∧
    ((∀ l ∈ s.lawsuits, l.court_room = roomId → l.verdict ≠ none) →
      (closeLawsuit s actor manageGuild roomId verdict).result =
        CloseResult.noActiveLawsuit ∧
      (closeLawsuit s actor manageGuild roomId verdict).state = s) := by
  have hmain :
      ((closeLawsuit s actor manageGuild roomId verdict).result =
          CloseResult.noActiveLawsuit ↔
        (s.lawsuits.find? (fun l => l.court_room == roomId && l.verdict.isNone) = none ∨
         s.court_rooms.find? (fun r => r.channel_id == roomId) = none)) ∧
      ((closeLawsuit s actor manageGuild roomId verdict).result =
          CloseResult.noActiveLawsuit →
        (closeLawsuit s actor manageGuild roomId verdict).state = s) := by
    cases hf : s.lawsuits.find? (fun l => l.court_room == roomId && l.verdict.isNone) with
    | none => simp [closeLawsuit, hf]
    | some L =>
        cases hr : s.court_rooms.find? (fun r => r.channel_id == roomId) with
        | none => simp [closeLawsuit, hf, hr]
        | some R =>
            by_cases ha : actor = L.judge ∨ manageGuild = true
            · rw [closeLawsuit, hf, hr]
              simp [if_pos ha]
            · rw [closeLawsuit, hf, hr]
              simp [if_neg ha]
  refine ⟨hmain.1, hmain.2, ?_⟩
  intro hall
  have hf : s.lawsuits.find? (fun l => l.court_room == roomId && l.verdict.isNone) = none := by
    rw [List.find?_eq_none]
    intro l hl
    simp only [Bool.and_eq_true, beq_iff_eq, Option.isNone_iff_eq_none, not_and]
    exact hall l hl
  have hres := hmain.1.mpr (Or.inl hf)
  exact ⟨hres, hmain.2 hres⟩

/-- C2 counterexample: in a state holding an active lawsuit in room 5 but
no court-room record for channel 5, close replies "no active process in
this room" although a lawsuit with `courtRoom == 5` and no verdict exists,
so the reply is not equivalent to the absence of such a lawsuit. -/
theorem close_noActive_iff_counterexample :
    (closeLawsuit exNoRoomState 3 false 5 "guilty").result =
      CloseResult.noActiveLawsuit ∧
    exNoRoomState.lawsuits.find?
      (fun l => l.court_room == 5 && l.verdict.isNone) = some exActiveLawsuit := by
  exact ⟨rfl, rfl⟩

/-- C2 witness: closing room 9, where no lawsuit runs, in a state with a
room record and an active lawsuit only in room 5, yields the
no-active-process reply and leaves the state unchanged. -/
theorem close_noActive_iff_witness :
    (closeLawsuit exCourtState 3 false 9 "x").result = CloseResult.noActiveLawsuit ∧
    (closeLawsuit exCourtState 3 false 9 "x").state = exCourtState :=
  ⟨(close_noActive_iff exCourtState 3 false 9 "x").1.mpr (Or.inl rfl),
   (close_noActive_iff exCourtState 3 false 9 "x").2.1
     ((close_noActive_iff exCourtState 3 false 9 "x").1.mpr (Or.inl rfl))⟩

/-- C3 (amended): for every close call on a room that has an active lawsuit
and an existing court-room record for its channel: an actor who is not the
lawsuit's judge and lacks the management override is rejected with
Forbidden and nothing changes; the recorded judge always succeeds, and the
matched lawsuit carries the verdict afterwards. -/
theorem close_judge_gated (s : GuildState) (actor : Nat) (manageGuild : Bool)
    (roomId : Nat) (verdict : String) (L : Lawsuit)
    (hL : s.lawsuits.find? (fun l => l.court_room == roomId && l.verdict.isNone) =
      some L)
    (hR : (s.court_rooms.find? (fun r => r.channel_id == roomId)).isSome) :
    (actor ≠ L.judge → manageGuild = false →
      (closeLawsuit s actor manageGuild roomId verdict).result =
        CloseResult.forbidden ∧
      (closeLawsuit s actor manageGuild roomId verdict).state = s) ∧
    (actor = L.judge →
      (closeLawsuit s actor manageGuild roomId verdict).result = CloseResult.closed ∧
      { L with verdict := some verdict } ∈
        (closeLawsuit s actor manageGuild roomId verdict).state.lawsuits) := by
  obtain ⟨R, hR⟩ := Option.isSome_iff_exists.mp hR
  constructor
  · intro hne hmg
    have hna : ¬(actor = L.judge ∨ manageGuild = true) := by
      rintro (h1 | h2)
      · exact hne h1
      · rw [hmg] at h2
        exact Bool.false_ne_true h2
    rw [closeLawsuit, hL, hR]
    simp [if_neg hna]
  · intro hj
    have ha : actor = L.judge ∨ manageGuild = true := Or.inl hj
    simp only [closeLawsuit, hL, hR, ha, if_true]
    exact ⟨trivial, updateLawsuitVerdict_mem _ _ _ _ hL⟩

/-- C3 counterexample: with an active lawsuit in room 5 whose judge is user
3 but no court-room record for channel 5, the judge's close call does not
succeed — it is answered with the no-active-process reply — refuting
"close by the recorded judge always succeeds if an active lawsuit exists in
that room". -/
theorem close_judge_gated_counterexample :
    exNoRoomState.lawsuits.find?
      (fun l => l.court_room == 5 && l.verdict.isNone) = some exActiveLawsuit ∧
    exActiveLawsuit.judge = 3 ∧
    (closeLawsuit exNoRoomState 3 false 5 "guilty").result =
      CloseResult.noActiveLawsuit ∧
    (closeLawsuit exNoRoomState 3 false 5 "guilty").result ≠ CloseResult.closed := by
  refine ⟨rfl, rfl, rfl, ?_⟩
  decide

/-- C3 witness: the judge (user 3) closes the active lawsuit in room 5 of a
state that also holds the room record; the call succeeds and the lawsuit
carries the verdict. -/
theorem close_judge_gated_witness :
    (closeLawsuit exCourtState 3 false 5 "guilty").result = CloseResult.closed ∧
    { exActiveLawsuit with verdict := some "guilty" } ∈
      (closeLawsuit exCourtState 3 false 5 "guilty").state.lawsuits :=
  (close_judge_gated exCourtState 3 false 5 "guilty" exActiveLawsuit rfl rfl).2 rfl

/-- C10: when an active lawsuit matches the invoked room but no court-room
record with that channel id exists, close replies with the same "no active
process in this room" message and changes nothing, so no verdict is set. -/
theorem close_requires_room_record (s : GuildState) (actor : Nat)
    (manageGuild : Bool) (roomId : Nat) (verdict : String) (L : Lawsuit)
    (hL : s.lawsuits.find? (fun l => l.court_room == roomId && l.verdict.isNone) =
      some L)
    (hR : s.court_rooms.find? (fun r => r.channel_id == roomId) = none) :
    (closeLawsuit s actor manageGuild roomId verdict).result =
      CloseResult.noActiveLawsuit ∧
    closeMessage (closeLawsuit s actor manageGuild roomId verdict).result =
      "i dem channel lauft kein aktive prozess!" ∧
    (closeLawsuit s actor manageGuild roomId verdict).state = s := by
  rw [closeLawsuit, hL, hR]
  exact ⟨rfl, rfl, rfl⟩

/-- C10 witness: even a permission-override close of room 5 in a state with
an active lawsuit there but no room record replies with the
no-active-process message and leaves the state unchanged. -/
theorem close_requires_room_record_witness :
    (closeLawsuit exNoRoomState 4 true 5 "v").result = CloseResult.noActiveLawsuit ∧
    closeMessage (closeLawsuit exNoRoomState 4 true 5 "v").result =
      "i dem channel lauft kein aktive prozess!" ∧
    (closeLawsuit exNoRoomState 4 true 5 "v").state = exNoRoomState :=
  close_requires_room_record exNoRoomState 4 true 5 "v" exActiveLawsuit rfl rfl

/-- C9: create fails unless the actor holds the guild-management permission
and the reason is non-empty; when both hold and the supplied id is fresh,
the first step allocates a lawsuit record with that id, no verdict, and the
sentinel court-room value 0, strictly before any room-creation call is
issued; the fresh id differs from every existing lawsuit's id, and a
successfully created lawsuit carries the fresh id and no verdict. -/
theorem create_requires_perm_and_allocates (s : GuildState) (manageGuild : Bool)
    (plaintiff accused judge freshId : Nat) (pLawyer aLawyer : Option Nat)
    (reason : String) (newChan : Option Nat) :
    (∀ l, (createLawsuit s manageGuild plaintiff accused judge pLawyer aLawyer
        reason freshId newChan).result = CreateResult.created l →
      manageGuild = true ∧ reason ≠ "") ∧
    (manageGuild = true → reason ≠ "" → freshId ∉ lawsuitIds s →
      (createLawsuit s manageGuild plaintiff accused judge pLawyer aLawyer
          reason freshId newChan).actions.head? =
        some (Action.allocLawsuit
          (mkLawsuit freshId plaintiff accused judge pLawyer aLawyer reason)) ∧
      (mkLawsuit freshId plaintiff accused judge pLawyer aLawyer reason).verdict = none ∧
      (mkLawsuit freshId plaintiff accused judge pLawyer aLawyer reason).court_room = 0 ∧
      (mkLawsuit freshId plaintiff accused judge pLawyer aLawyer reason).id = freshId ∧
      (∀ l2 ∈ s.lawsuits, l2.id ≠ freshId) ∧
      (∀ n c,
        (createLawsuit s manageGuild plaintiff accused judge pLawyer aLawyer
            reason freshId newChan).actions.get? n = some (Action.createRoom c) →
        0 < n) ∧
      (∀ l,
        (createLawsuit s manageGuild plaintiff accused judge pLawyer aLawyer
            reason freshId newChan).result = CreateResult.created l →
        l.id = freshId ∧ l.verdict = none)) := by
  constructor
  · intro l hl
    cases manageGuild with
    | false => simp [createLawsuit] at hl
    | true =>
        by_cases hr : reason = ""
        · simp [createLawsuit, hr] at hl
        · exact ⟨rfl, hr⟩
  · intro hmg hr hfresh
    subst hmg
    have hfresh2 : ∀ l2 ∈ s.lawsuits, l2.id ≠ freshId := by
      intro l2 hl2 he
      apply hfresh
      simp only [lawsuitIds, List.mem_map]
      exact ⟨l2, hl2, he⟩
    cases hc : s.court_category with
    | none =>
        refine ⟨?_, rfl, rfl, rfl, hfresh2, ?_, ?_⟩
        · simp [createLawsuit, hr, hc]
        · intro n c h
          match n with
          | 0 => simp [createLawsuit, hr, hc] at h
          | n + 1 => exact Nat.succ_pos n
        · intro l hl
          simp [createLawsuit, hr, hc] at hl
    | some cat =>
        cases hn : newChan with
        | none =>
            refine ⟨?_, rfl, rfl, rfl, hfresh2, ?_, ?_⟩
            · simp [createLawsuit, hr, hc, hn]
            · intro n c h
              match n with
              | 0 => simp [createLawsuit, hr, hc, hn] at h
              | n + 1 => exact Nat.succ_pos n
            · intro l hl
              simp [createLawsuit, hr, hc, hn] at hl
        | some chan =>
            refine ⟨?_, rfl, rfl, rfl, hfresh2, ?_, ?_⟩
            · simp [createLawsuit, hr, hc, hn]
            · intro n c h
              match n with
              | 0 => simp [createLawsuit, hr, hc, hn] at h
              | n + 1 => exact Nat.succ_pos n
            · intro l hl
              simp [createLawsuit, hr, hc, hn] at hl
              subst hl
              exact ⟨rfl, rfl⟩

/-- C9 witness: in a configured guild, a permitted create with the
non-empty reason "noise" and fresh id 10 allocates the sentinel-room
lawsuit first, and its platform-provisioned result keeps id 10 with no
verdict. -/
theorem create_requires_perm_and_allocates_witness :
    (createLawsuit (set_court_category initState 7) true 1 2 3 none none
        "noise" 10 (some 5)).actions.head? =
      some (Action.allocLawsuit (mkLawsuit 10 1 2 3 none none "noise")) ∧
    (mkLawsuit 10 1 2 3 none none "noise").verdict = none ∧
    (mkLawsuit 10 1 2 3 none none "noise").court_room = 0 :=
  ⟨((create_requires_perm_and_allocates (set_court_category initState 7) true 1 2 3 10
      none none "noise" (some 5)).2 rfl (by decide)
        (by simp [lawsuitIds, set_court_category, initState])).1,
   ((create_requires_perm_and_allocates (set_court_category initState 7) true 1 2 3 10
      none none "noise" (some 5)).2 rfl (by decide)
        (by simp [lawsuitIds, set_court_category, initState])).2.1,
   ((create_requires_perm_and_allocates (set_court_category initState 7) true 1 2 3 10
      none none "noise" (some 5)).2 rfl (by decide)
        (by simp [lawsuitIds, set_court_category, initState])).2.2.1⟩

/-- The create handler either leaves the state alone or appends exactly one
new court room and one new lawsuit living in it. -/
theorem createLawsuit_state (s : GuildState) (mg : Bool) (p a j : Nat)
    (pl al : Option Nat) (reason : String) (fid : Nat) (chan : Option Nat) :
    (createLawsuit s mg p a j pl al reason fid chan).state = s ∨
    ∃ c, chan = some c ∧
      (createLawsuit s mg p a j pl al reason fid chan).state =
        { s with
            court_rooms := s.court_rooms ++ [{ channel_id := c }]
            lawsuits := s.lawsuits ++
              [{ mkLawsuit fid p a j pl al reason with court_room := c }] } := by
  cases mg with
  | false => left; simp [createLawsuit]
  | true =>
      by_cases hr : reason = ""
      · left; simp [createLawsuit, hr]
      · cases hc : s.court_category with
        | none => left; simp [createLawsuit, hr, hc]
        | some cat =>
            cases hn : chan with
            | none => left; simp [createLawsuit, hr, hc, hn]
            | some c =>
                right
                exact ⟨c, rfl, by simp [createLawsuit, hr, hc, hn]⟩

/-- The close handler either leaves the state alone or replaces the lawsuit
list by the verdict update for the invoked room. -/
theorem closeLawsuit_state (s : GuildState) (actor : Nat) (mg : Bool)
    (roomId : Nat) (v : String) :
    (closeLawsuit s actor mg roomId v).state = s ∨
    (closeLawsuit s actor mg roomId v).state =
      { s with lawsuits := updateLawsuitVerdict s.lawsuits roomId v } := by
  cases hf : s.lawsuits.find? (fun l => l.court_room == roomId && l.verdict.isNone) with
  | none => left; simp [closeLawsuit, hf]
  | some L =>
      cases hr : s.court_rooms.find? (fun r => r.channel_id == roomId) with
      | none => left; simp [closeLawsuit, hf, hr]
      | some R =>
          by_cases ha : actor = L.judge ∨ mg = true
          · right; simp [closeLawsuit, hf, hr, ha]
          · left; simp [closeLawsuit, hf, hr, ha]

/-- Setting a verdict never increases the number of active lawsuits in any
room. -/
theorem countActiveList_update_le (ls : List Lawsuit) (roomId : Nat) (v : String)
    (R : Nat) :
    countActiveList (updateLawsuitVerdict ls roomId v) R ≤ countActiveList ls R := by
  induction ls with
  | nil => simp [updateLawsuitVerdict, countActiveList]
  | cons h t ih =>
      simp only [updateLawsuitVerdict]
      split
      · by_cases hcond : (h.court_room == R && h.verdict.isNone) = true
        · simp [countActiveList, List.filter_cons, hcond]
        · simp [countActiveList, List.filter_cons, hcond]
      · by_cases hcond : (h.court_room == R && h.verdict.isNone) = true
        · simp only [countActiveList, List.filter_cons, hcond, if_true,
            List.length_cons]
          exact Nat.succ_le_succ ih
        · simp only [countActiveList, List.filter_cons, hcond, if_false]
          exact ih

/-- Setting a verdict does not move any lawsuit to a different room. -/
theorem updateLawsuitVerdict_court_room (ls : List Lawsuit) (roomId : Nat)
    (v : String) (l' : Lawsuit) (h : l' ∈ updateLawsuitVerdict ls roomId v) :
    ∃ l ∈ ls, l'.court_room = l.court_room := by
  induction ls with
  | nil => simp [updateLawsuitVerdict] at h
  | cons hd t ih =>
      simp only [updateLawsuitVerdict] at h
      by_cases hp : hd.court_room = roomId ∧ hd.verdict = none
      · rw [if_pos hp] at h
        rcases List.mem_cons.mp h with h1 | h2
        · exact ⟨hd, List.mem_cons_self _ _, by rw [h1]⟩
        · exact ⟨l', List.mem_cons_of_mem _ h2, rfl⟩
      · rw [if_neg hp] at h
        rcases List.mem_cons.mp h with h1 | h2
        · exact ⟨hd, List.mem_cons_self _ _, by rw [h1]⟩
        · obtain ⟨l, hl, he⟩ := ih h2
          exact ⟨l, List.mem_cons_of_mem _ hl, he⟩

/-- Every reachable guild state satisfies the lawsuit invariant: court
rooms cover the lawsuits' rooms, and no room has two active lawsuits. -/
theorem reachable_lawsuitInv (s : GuildState) (h : Reachable s) : lawsuitInv s := by
  induction h with
  | init =>
      exact ⟨by simp [roomsCover, initState], by simp [countActive, countActiveList, initState]⟩
  | setCategory s cat hs ih =>
      obtain ⟨hc, hcount⟩ := ih
      exact ⟨fun l hl => hc l hl, fun R => hcount R⟩
  | clear s hs ih =>
      exact ⟨by simp [roomsCover, clearGuild, initState],
        by simp [countActive, countActiveList, clearGuild, initState]⟩
  | close s actor mg roomId v hs ih =>
      obtain ⟨hc, hcount⟩ := ih
      rcases closeLawsuit_state s actor mg roomId v with heq | heq
      · rw [heq]; exact ⟨hc, hcount⟩
      · rw [heq]
        constructor
        · intro l hl
          obtain ⟨l0, hl0, he⟩ := updateLawsuitVerdict_court_room _ _ _ _ hl
          have hmem := hc l0 hl0
          simpa [roomIds, he] using hmem
        · intro R
          exact le_trans (countActiveList_update_le s.lawsuits roomId v R) (hcount R)
  | create s mg p a j pl al reason fid chan hs hfresh ih =>
      obtain ⟨hc, hcount⟩ := ih
      rcases createLawsuit_state s mg p a j pl al reason fid chan with heq | ⟨c, hchan, heq⟩
      · rw [heq]; exact ⟨hc, hcount⟩
      · rw [heq]
        have hcf : c ∉ roomIds s := hfresh c hchan
        constructor
        · intro l hl
          simp only [List.mem_append] at hl
          rcases hl with hl1 | hl2
          · have hmem := hc l hl1
            simp only [roomIds, List.map_append]
            exact List.mem_append.mpr (Or.inl hmem)
          · simp only [List.mem_singleton] at hl2
            subst hl2
            simp [roomIds, List.map_append]
        · intro R
          by_cases hRc : R = c
          · subst hRc
            have hfilter : s.lawsuits.filter
                (fun l => l.court_room == R && l.verdict.isNone) = [] := by
              rw [List.filter_eq_nil_iff]
              intro l hl
              simp only [Bool.and_eq_true, beq_iff_eq, Option.isNone_iff_eq_none,
                not_and]
              intro hcr _
              exact hcf (hcr ▸ hc l hl)
            simp [countActive, countActiveList, List.filter_append, hfilter,
              mkLawsuit]
          · have hlast : (({ mkLawsuit fid p a j pl al reason with
                court_room := c } : Lawsuit).court_room == R &&
                ({ mkLawsuit fid p a j pl al reason with
                  court_room := c } : Lawsuit).verdict.isNone) = false := by
              simp [Ne.symm hRc]
            simp only [countActive, countActiveList, List.filter_append,
              List.filter_cons, hlast, if_false, List.filter_nil, List.append_nil,
              List.length_append, List.length_nil, Nat.add_zero]
            exact hcount R

/-- C1: in every guild state reachable by any sequence of the lawsuit
command handler's operations (create, close, category configuration,
clear), no room ever hosts two lawsuits that both have that room as their
court room and no verdict: at most one lawsuit per room is active. -/
theorem at_most_one_active_lawsuit_per_room (s : GuildState) (h : Reachable s)
    (R : Nat) : countActive s R ≤ 1 :=
  (reachable_lawsuitInv s h).2 R

/-- C1 witness: after configuring category 7 and creating a lawsuit whose
room is provisioned as channel 5, room 5 hosts at most one active
lawsuit. -/
theorem at_most_one_active_lawsuit_per_room_witness :
    countActive (createLawsuit (set_court_category initState 7) true 1 2 3
      none none "noise" 10 (some 5)).state 5 ≤ 1 :=
  at_most_one_active_lawsuit_per_room _
    (Reachable.create (set_court_category initState 7) true 1 2 3 none none
      "noise" 10 (some 5)
      (Reachable.setCategory initState 7 Reachable.init)
      (fun c _ => by simp [roomIds, set_court_category, initState]))
    5

end CourtBot
